import Mathlib

/-!
# Verification of the market-matrix-updater metric pipeline

Shallow embedding of `src/market_matrix_updater.py`.

Modelling decisions, applied uniformly:

* Python floats are modelled as rationals (`ℚ`).  `round(x, 6)` is Python's
  round-half-to-even, modelled by `rhe`/`round6`.  Float division by zero
  produces `±inf` (or `nan` for `0/0`), never an exception, and `safe_float`
  maps every non-finite value to `None`; the composition of a ratio with
  `safe_float` is therefore modelled by `safe_ratio_change`.
* A pandas `Series` is a list of `(Date, Option ℚ)` pairs, `none` standing
  for a `NaN` entry; `Series.dropna` is `dropna`.  Timestamps carry calendar
  resolution (year/month/day), which is all the source consults.
* A Python dict of metrics is a record whose windowed fields have type
  `Option (Option ℚ)`: the outer layer is key presence in the dict, the
  inner layer is the (possibly `None`) stored value.  The `收盘价` (latest)
  key is set unconditionally in every dict the source builds, so it is
  modelled by a single `Option ℚ` (the stored value).
* A `DataFrame` is a list of named columns over a shared index.  The
  MultiIndex branch of `calculate_returns` (lines 175–176) concerns the
  yfinance multi-ticker shape and is outside the modelled fragment; all
  claims concern flat tables, which the embedding covers (line 178).
* `try/except` blocks that swallow an exception and yield no data are
  modelled by `Option`/explicit outcome types; network calls are modelled
  by an environment supplying each call's outcome.
-/

/-- A calendar date, the resolution at which the source consults its
pandas timestamps. -/
structure Date where
  y : ℕ
  m : ℕ
  d : ℕ
deriving DecidableEq, Repr

/-- Shorthand constructor for dates. -/
def D (y m d : ℕ) : Date := ⟨y, m, d⟩

/-- Lexicographic `≤` on dates, modelling comparison of pandas timestamps. -/
def dle (a b : Date) : Bool :=
  if a.y = b.y then
    (if a.m = b.m then decide (a.d ≤ b.d) else decide (a.m < b.m))
  else decide (a.y < b.y)

/-- Round-half-to-even to an integer: the semantics of Python's built-in
`round` applied to an exact value. -/
def rhe (q : ℚ) : ℤ :=
  if q - ⌊q⌋ < 1/2 then ⌊q⌋
  else if 1/2 < q - ⌊q⌋ then ⌊q⌋ + 1
  else if ⌊q⌋ % 2 = 0 then ⌊q⌋ else ⌊q⌋ + 1

/-- `round(x, 6)`: round to six decimal places, half to even. -/
def round6 (q : ℚ) : ℚ := (rhe (q * 1000000) : ℚ) / 1000000

/-- The possible inputs of `safe_float` (line 53): Python `None`, a finite
number, `nan`, `±inf`, or any non-numeric object. -/
inductive PyVal where
  | none : PyVal
  | num : ℚ → PyVal
  | nan : PyVal
  | inf : PyVal
  | other : PyVal
deriving DecidableEq, Repr

/-- `safe_float` (lines 53–61): `None`, non-numeric, `nan` and `inf`
map to `None`; finite numbers are rounded to 6 decimal places. -/
def safe_float : PyVal → Option ℚ
  | PyVal.none => Option.none
  | PyVal.num q => some (round6 q)
  | PyVal.nan => Option.none
  | PyVal.inf => Option.none
  | PyVal.other => Option.none

/-- Re-embed a sanitizer output as a Python value (for iterating
`safe_float`): `None` stays `None`, a finite rational stays itself. -/
def reembed : Option ℚ → PyVal
  | Option.none => PyVal.none
  | some q => PyVal.num q

/-- A raw pandas series: ordered `(timestamp, value)` pairs where `none`
models a `NaN` entry.  Values parsed by `pd.to_numeric` from decimal text
are either `NaN` or finite, so `±inf` entries do not arise in series. -/
abbrev RawSeries := List (Date × Option ℚ)

/-- `Series.dropna`: drop the `NaN` entries, keeping order. -/
def dropna (s : RawSeries) : List (Date × ℚ) :=
  s.filterMap (fun p => p.2.map (fun v => (p.1, v)))

/-- Embed an already-clean series as a raw series (no `NaN` entries). -/
def inject (s : List (Date × ℚ)) : RawSeries :=
  s.map (fun p => (p.1, some p.2))

/-- `safe_float(a / b - 1)` under float semantics: division by zero yields
`±inf` (or `nan`), which `safe_float` maps to `None`; otherwise the finite
ratio is rounded to six decimals. -/
def safe_ratio_change (a b : ℚ) : Option ℚ :=
  if b = 0 then Option.none else some (round6 (a / b - 1))

/-- The metrics dict built by `calculate_returns` / `calculate_spread_changes`.
`latest` models the `收盘价` key (always inserted, holding the sanitized
value); each windowed field is `none` when its key is absent from the dict
and `some v` when the key is present and maps to `v : Option ℚ`
(`v = none` models a key stored with Python `None`). -/
structure MetricSet where
  latest : Option ℚ
  d1 : Option (Option ℚ)
  w1 : Option (Option ℚ)
  m1 : Option (Option ℚ)
  y1 : Option (Option ℚ)
  qtd : Option (Option ℚ)
  ytd : Option (Option ℚ)
deriving DecidableEq, Repr

/-- First day of the quarter of `d` (line 212):
`quarter_month = ((month - 1) // 3) * 3 + 1`, day 1. -/
def quarter_start (dt : Date) : Date := ⟨dt.y, ((dt.m - 1) / 3) * 3 + 1, 1⟩

/-- January 1 of the year of `d` (line 220). -/
def year_start (dt : Date) : Date := ⟨dt.y, 1, 1⟩

/-- Default pair for guarded list accesses (never reached: every access
below is guarded by the same length test the source performs). -/
def dflt : Date × ℚ := (⟨0, 1, 1⟩, 0)

/-- Lines 182–226 of `calculate_returns`: the per-series computation, after
the value column has been extracted.  `close.iloc[-k]` is element
`length - k`; each windowed key is inserted exactly under the source's
length test; QTD/YTD filter by `index >= start` (inclusive). -/
def calc_returns_on (close : RawSeries) : Option MetricSet :=
  let c := dropna close
  if c.length < 2 then Option.none
  else
    let n := c.length
    let lastp := c.getLastD dflt
    let today := lastp.1
    let lv := lastp.2
    let qd := c.filter (fun p => dle (quarter_start today) p.1)
    let yd := c.filter (fun p => dle (year_start today) p.1)
    some
      { latest := some (round6 lv)
        d1 := if 2 ≤ n then some (safe_ratio_change lv (c.getD (n - 2) dflt).2) else Option.none
        w1 := if 6 ≤ n then some (safe_ratio_change lv (c.getD (n - 6) dflt).2) else Option.none
        m1 := if 22 ≤ n then some (safe_ratio_change lv (c.getD (n - 22) dflt).2) else Option.none
        y1 := if 253 ≤ n then some (safe_ratio_change lv (c.getD (n - 253) dflt).2) else Option.none
        qtd := if 2 ≤ qd.length then
            some (safe_ratio_change (qd.getLastD dflt).2 (qd.headD dflt).2) else Option.none
        ytd := if 2 ≤ yd.length then
            some (safe_ratio_change (yd.getLastD dflt).2 (yd.headD dflt).2) else Option.none }

/-- `calculate_spread_changes` (lines 231–258): absolute changes.  The
`len(series) < 2` guard is on the raw series (before `dropna`); an
all-`NaN` series makes `series.iloc[-1]` raise `IndexError`, caught by the
enclosing `except`, hence `none`.  Finite minus finite is finite, so each
stored value is `safe_float` of the difference, i.e. its rounding.  No
QTD/YTD keys are ever inserted. -/
def calculate_spread_changes (series : RawSeries) : Option MetricSet :=
  if series.length < 2 then Option.none
  else
    let s := dropna series
    match s.getLast? with
    | Option.none => Option.none
    | some lastp =>
      let n := s.length
      let cur := lastp.2
      some
        { latest := some (round6 cur)
          d1 := if 2 ≤ n then some (some (round6 (cur - (s.getD (n - 2) dflt).2))) else Option.none
          w1 := if 6 ≤ n then some (some (round6 (cur - (s.getD (n - 6) dflt).2))) else Option.none
          m1 := if 22 ≤ n then some (some (round6 (cur - (s.getD (n - 22) dflt).2))) else Option.none
          y1 := if 253 ≤ n then some (some (round6 (cur - (s.getD (n - 253) dflt).2))) else Option.none
          qtd := Option.none
          ytd := Option.none }

/-- A flat-column DataFrame: named columns over a shared index.  (Columns
of a well-formed frame share their index; the claims below never need that
invariant.) -/
abbrev Frame := List (String × RawSeries)

/-- `df.empty`: true when the frame has no rows (no columns, or a zero-row
index, visible on the first column). -/
def frameEmpty (f : Frame) : Bool :=
  match f with
  | [] => true
  | c :: _ => c.2.isEmpty

/-- Column selection of `calculate_returns` on a flat table (line 178):
`df['Close'] if 'Close' in df.columns else df.iloc[:, 0]` — the named
close column when present, otherwise the FIRST column. -/
def select_value_col (f : Frame) : RawSeries :=
  match f.find? (fun c => c.1 == "Close") with
  | some c => c.2
  | Option.none => (f.headD ("", [])).2

/-- `calculate_returns` (lines 167–229) on a flat frame: `None`/empty input
yields `None` (line 169); otherwise the value column is selected and the
per-series computation runs. -/
def calculate_returns (df : Frame) : Option MetricSet :=
  if frameEmpty df then Option.none else calc_returns_on (select_value_col df)

/-- `col.upper()` at character level. -/
def upperChars (s : String) : List Char := s.data.map Char.toUpper

/-- Contiguous-substring test (`needle in haystack` on Python strings). -/
def isInfixB (needle hay : List Char) : Bool :=
  match hay with
  | [] => needle.isEmpty
  | _ :: t => needle.isPrefixOf hay || isInfixB needle t

/-- Line 144: `'P/C' in col.upper() or 'RATIO' in col.upper()`. -/
def ratio_tagged (name : String) : Bool :=
  isInfixB ("P/C".data) (upperChars name) || isInfixB ("RATIO".data) (upperChars name)

/-- Column selection of `get_cboe_put_call_ratio` (lines 143–148): the
first column tagged as a put/call or ratio column, else the LAST column
(`df.iloc[:, -1]`).  The input lists the value columns (the date column
has already become the index). -/
def cboe_select (cols : Frame) : RawSeries :=
  match cols.find? (fun c => ratio_tagged c.1) with
  | some c => c.2
  | Option.none => (cols.getLastD ("", [])).2

/-- The column-selection rule as the spec states it, for comparison with
the source: an exact close column; else a ratio/percentage-tagged column;
else the LAST column. -/
def spec_column_rule (f : Frame) : RawSeries :=
  match f.find? (fun c => c.1 == "Close") with
  | some c => c.2
  | Option.none =>
    match f.find? (fun c => ratio_tagged c.1) with
    | some c => c.2
    | Option.none => (f.getLastD ("", [])).2

/-- Outcome of one `yf.download` call: an uncaught exception, no data
(`None` returned), or a frame. -/
inductive YOutcome where
  | raise : YOutcome
  | nodl : YOutcome
  | ok : Frame → YOutcome

/-- The external world of one `fetch_all_data` run: the Yahoo response per
ticker, and the (already caught) results of the FRED and CBOE fetchers. -/
structure FetchEnv where
  yahoo : String → YOutcome
  fred : Option RawSeries
  cboe : Option RawSeries

/-- Python truthiness of `returns.get("收盘价")`: `None` and `0.0` are
falsy, every other float is truthy. -/
def truthy (v : Option ℚ) : Bool :=
  match v with
  | Option.none => false
  | some q => if q = 0 then false else true

/-- Lines 272–284, one ticker: download, guard `df is not None and not
df.empty`, compute returns, and accept only when the metrics dict exists
and its `收盘价` entry is truthy; any exception yields nothing. -/
def process_ticker (env : FetchEnv) (tk : String) : Option MetricSet :=
  match env.yahoo tk with
  | YOutcome.raise => Option.none
  | YOutcome.nodl => Option.none
  | YOutcome.ok df =>
    if frameEmpty df then Option.none
    else
      match calculate_returns df with
      | Option.none => Option.none
      | some ms => if truthy ms.latest then some ms else Option.none

/-- The body of the Yahoo loop (lines 269–285): a `None` ticker is skipped
(`continue`); otherwise the instrument is recorded exactly when
`process_ticker` accepts it. -/
def yahoo_step (env : FetchEnv) (acc : List (String × MetricSet))
    (i : String × Option String) : List (String × MetricSet) :=
  match i.2 with
  | Option.none => acc
  | some tk =>
    match process_ticker env tk with
    | Option.none => acc
    | some ms => acc ++ [(i.1, ms)]

/-- The Yahoo section of `fetch_all_data` over an instrument table. -/
def fetch_yahoo (env : FetchEnv) (tmap : List (String × Option String)) :
    List (String × MetricSet) :=
  tmap.foldl (yahoo_step env) []

/-- The FRED/CBOE sections (lines 289–317): a non-`None`, non-empty series
is run through `calculate_spread_changes`; a truthy (non-`None`) dict is
recorded under the fixed name. -/
def spread_entry (name : String) (r : Option RawSeries) : List (String × MetricSet) :=
  match r with
  | Option.none => []
  | some s =>
    if s.length = 0 then []
    else
      match calculate_spread_changes s with
      | Option.none => []
      | some dd => [(name, dd)]

/-- `TICKER_MAP` (lines 22–51). -/
def TICKER_MAP : List (String × Option String) :=
  [("美元", some "DX-Y.NYB"), ("2年美债", some "^IRX"), ("10年美债", some "^TNX"),
   ("TLT", some "TLT"), ("标普500", some "SPY"), ("纳指", some "QQQ"),
   ("道指", some "DIA"), ("黄金", some "GLD"), ("WTI原油", some "USO"),
   ("VIX", some "^VIX"), ("罗素2000", some "IWM"), ("比特币", some "BTC-USD"),
   ("通讯服务", some "IXP"), ("非必需品消费", some "XLY"), ("必需品消费", some "XLP"),
   ("能源", some "XLE"), ("银行", some "KBWB"), ("公共事业", some "XLU"),
   ("REITS", some "IYR"), ("科技", some "XLK"), ("医疗", some "XLV"),
   ("趋势板块", some "MTUM"), ("保险板块", some "IAK"), ("芯片", some "SOXX"),
   ("罗素1000价值", some "IWD"), ("罗素1000成长", some "IWF"),
   ("前7大科技", some "MAGS"), ("标普等权指数", some "RSP")]

/-- `fetch_all_data` (lines 263–319): the Yahoo loop over `TICKER_MAP`,
then the junk-bond-spread (FRED) entry, then the put/call-ratio (CBOE)
entry. -/
def fetch_all_data (env : FetchEnv) : List (String × MetricSet) :=
  fetch_yahoo env TICKER_MAP ++ spread_entry "垃圾债券利差" env.fred
    ++ spread_entry "PUT/CALL" env.cboe

/-- Outcome of one HTTP attempt inside `get_fred_data`: an exception, or a
response with a status code and the parsed rows (dates with
`pd.to_numeric(..., errors='coerce')` results, `none` for a failed parse
such as FRED's `"."` placeholder). -/
inductive FredAttempt where
  | raise : FredAttempt
  | http : ℕ → RawSeries → FredAttempt

/-- The external world of one `get_fred_data` call: whether an API key is
configured, and the outcome of each of the two strategies, would it be
attempted. -/
structure FredEnv where
  hasKey : Bool
  primary : FredAttempt
  secondary : FredAttempt

/-- Stable insertion into a date-sorted list (ascending). -/
def insertByDate (p : Date × Option ℚ) : RawSeries → RawSeries
  | [] => [p]
  | q :: t => if dle p.1 q.1 then p :: q :: t else q :: insertByDate p t

/-- `set_index(date).sort_index()`: sort the rows by date, ascending. -/
def sortByDate (s : RawSeries) : RawSeries :=
  s.foldr insertByDate []

/-- The series each strategy returns on success: sort by date, then
`dropna` the coerced values (lines 82–85 and 104–108). -/
def fred_clean (rows : RawSeries) : List (Date × ℚ) :=
  dropna (sortByDate rows)

/-- The secondary strategy (direct CSV download, lines 88–111): a 200
response returns the cleaned rows (even when empty); any other status
returns `None`; an exception is caught at line 113.  The Boolean records
that this strategy was attempted. -/
def fred_secondary (sec : FredAttempt) : Option (List (Date × ℚ)) × Bool :=
  match sec with
  | FredAttempt.raise => (Option.none, true)
  | FredAttempt.http st2 rows2 =>
    if st2 = 200 then (some (fred_clean rows2), true) else (Option.none, true)

/-- `get_fred_data` (lines 63–115).  First component: the returned series
(`none` models the `return None` paths and the swallowed exceptions).
Second component: whether the secondary (direct CSV) strategy was
attempted.  The primary is consulted only with an API key; a 200 response
with a non-empty observations list is returned at once (line 85); a
non-200 status or empty observations falls through to the CSV download;
an exception in either attempt is caught at line 113, ending the whole
call. -/
def get_fred_data (env : FredEnv) : Option (List (Date × ℚ)) × Bool :=
  if env.hasKey then
    match env.primary with
    | FredAttempt.raise => (Option.none, false)
    | FredAttempt.http st rows =>
      if st = 200 ∧ rows ≠ [] then (some (fred_clean rows), false)
      else fred_secondary env.secondary
  else fred_secondary env.secondary

/-- One remote row, as `update_notion_database` sees it: the page id and
the extracted display name (`none` models a missing `资产名称` property or
an empty title array, lines 386–387). -/
structure Page where
  id : String
  name : Option String
deriving DecidableEq, Repr

/-- The payload of one `update_notion_page` call: the numeric properties
written, in insertion order, plus the `更新时间` date stamp. -/
structure UpdatePayload where
  numbers : List (String × ℚ)
  dateStamp : String
deriving DecidableEq, Repr

/-- One conditional insertion `if data.get(k) is not None:
properties[k] = ...` (lines 348–361). -/
def optEntry (key : String) (v : Option ℚ) : List (String × ℚ) :=
  match v with
  | Option.none => []
  | some q => [(key, q)]

/-- The properties built by `update_notion_page` (lines 346–365): exactly
the keys whose `data.get` is non-`None`, in source order, then the
`更新时间` stamp.  `data.get(k)` on a windowed field is the join of key
presence and stored value. -/
def update_notion_page_props (data : MetricSet) (today : String) : UpdatePayload :=
  { numbers :=
      optEntry "收盘价" data.latest
        ++ optEntry "1天" (data.d1.bind id)
        ++ optEntry "1星期" (data.w1.bind id)
        ++ optEntry "1个月" (data.m1.bind id)
        ++ optEntry "1年" (data.y1.bind id)
        ++ optEntry "QTD" (data.qtd.bind id)
        ++ optEntry "YTD" (data.ytd.bind id)
    dateStamp := today }

/-- `data.get(k)` for the metric keys, as one function of the key. -/
def mget (m : MetricSet) (k : String) : Option ℚ :=
  if k = "收盘价" then m.latest
  else if k = "1天" then m.d1.bind id
  else if k = "1星期" then m.w1.bind id
  else if k = "1个月" then m.m1.bind id
  else if k = "1年" then m.y1.bind id
  else if k = "QTD" then m.qtd.bind id
  else if k = "YTD" then m.ytd.bind id
  else Option.none

/-- The update loop of `update_notion_database` (lines 385–394): rows with
an extractable display name that is a key of the result set receive one
`update_notion_page` call; every other row receives none.  The returned
list is the sequence of issued calls `(page id, payload)`. -/
def update_notion_database (md : List (String × MetricSet)) (pages : List Page)
    (today : String) : List (String × UpdatePayload) :=
  pages.filterMap (fun p =>
    match p.name with
    | Option.none => Option.none
    | some n =>
      match List.lookup n md with
      | Option.none => Option.none
      | some dd => some (p.id, update_notion_page_props dd today))

/-- Time-ascending series (the sortedness the source assumes of its
pandas index). -/
def ascending : List (Date × ℚ) → Bool
  | [] => true
  | [_] => true
  | a :: b :: t => dle a.1 b.1 && ascending (b :: t)

/-! Concrete data used by the witnesses and counterexamples below. -/

/-- The four-point series of the spec's `1d` example. -/
def sample4 : List (Date × ℚ) :=
  [(D 2024 1 2, 100), (D 2024 1 3, 102), (D 2024 1 4, 99), (D 2024 1 5, 105)]

/-- An ascending six-point series. -/
def sample6 : List (Date × ℚ) :=
  [(D 2024 1 2, 10), (D 2024 1 3, 11), (D 2024 1 4, 12),
   (D 2024 1 5, 13), (D 2024 1 8, 14), (D 2024 1 9, 15)]

/-- A raw series with exactly one valid point. -/
def sample1 : RawSeries := [(D 2024 1 2, some 100)]

/-- A raw two-entry series whose first value is `NaN`. -/
def sampleHalfNaN : RawSeries := [(D 2024 1 2, Option.none), (D 2024 1 3, some 2)]

/-- A series crossing the 2024-07-01 quarter boundary, with one point
exactly on it. -/
def sampleQ : List (Date × ℚ) :=
  [(D 2024 6 28, 100), (D 2024 7 1, 110), (D 2024 8 15, 121)]

/-- The delta-mode series of the spec's `1d` example. -/
def sample3 : List (Date × ℚ) := [(D 2024 1 2, 4.5), (D 2024 1 3, 4.3), (D 2024 1 4, 4.6)]

def colA : RawSeries := [(D 2024 1 2, some 1), (D 2024 1 3, some 2)]

def colB : RawSeries := [(D 2024 1 2, some 3), (D 2024 1 3, some 5)]

def colC : RawSeries := [(D 2024 1 2, some 7), (D 2024 1 3, some 8)]

/-- A two-column frame with neither a close column nor a ratio tag. -/
def frameAB : Frame := [("A", colA), ("B", colB)]

/-- A frame with an exact close column in second position. -/
def frameClose : Frame := [("Open", colA), ("Close", colC)]

/-- CBOE-shaped value columns, the ratio column last. -/
def framePC : Frame := [("VOLUME", colA), ("P/C RATIO", colC)]

/-- A frame whose latest close is exactly 0 (earlier value 5). -/
def frameZero : Frame := [("Close", [(D 2024 1 2, some 5), (D 2024 1 3, some 0)])]

/-- An environment serving `frameZero` for ticker `T` and raising on every
other ticker. -/
def envZero : FetchEnv :=
  ⟨fun tk => if tk = "T" then YOutcome.ok frameZero else YOutcome.raise,
   Option.none, Option.none⟩

def tmapZero : List (String × Option String) := [("X", some "T")]

/-- The metric set `calculate_returns` derives from `frameZero`. -/
def msZero : MetricSet :=
  ⟨some 0, some (some (-1)), Option.none, Option.none, Option.none,
   some (some (-1)), some (some (-1))⟩

/-- A frame whose latest close is 6 (nonzero, earlier value 5). -/
def frameOK : Frame := [("Close", [(D 2024 1 2, some 5), (D 2024 1 3, some 6)])]

/-- An environment serving `frameOK` for ticker `T` and raising on every
other ticker. -/
def envOK : FetchEnv :=
  ⟨fun tk => if tk = "T" then YOutcome.ok frameOK else YOutcome.raise,
   Option.none, Option.none⟩

/-- The metric set `calculate_returns` derives from `frameOK`, with its
values still in unevaluated sanitizer form. -/
def msOK : MetricSet :=
  ⟨some (round6 6), some (safe_ratio_change 6 5), Option.none, Option.none,
   Option.none, some (safe_ratio_change 6 5), some (safe_ratio_change 6 5)⟩

/-- A one-instrument table whose provider reference is absent. -/
def tmapNone : List (String × Option String) := [("N", Option.none)]

/-- FRED environment whose primary returns HTTP 200 with one observation
whose value fails numeric parsing (for example FRED's `"."`). -/
def fredCE : FredEnv :=
  ⟨true, FredAttempt.http 200 [(D 2024 1 2, Option.none)],
   FredAttempt.http 200 [(D 2024 1 3, some 1)]⟩

/-- FRED environment whose primary returns HTTP 500. -/
def fredW : FredEnv :=
  ⟨true, FredAttempt.http 500 [], FredAttempt.http 200 [(D 2024 1 3, some 1)]⟩

def pageX : Page := ⟨"pid1", some "X"⟩

def pageY : Page := ⟨"pid2", some "Y"⟩

def pageAnon : Page := ⟨"pid3", Option.none⟩

theorem dropna_inject (s : List (Date × ℚ)) : dropna (inject s) = s := by
  induction s with
  | nil => rfl
  | cons p t ih => simp [dropna, inject] at ih ⊢; exact ih

theorem rhe_intCast (z : ℤ) : rhe (z : ℚ) = z := by
  simp [rhe]

theorem round6_intCast_div (z : ℤ) : round6 ((z : ℚ) / 1000000) = (z : ℚ) / 1000000 := by
  have h : ((z : ℚ) / 1000000) * 1000000 = (z : ℚ) := by
    field_simp
  rw [round6, h, rhe_intCast]

theorem round6_idem (q : ℚ) : round6 (round6 q) = round6 q := by
  have h : round6 q = ((rhe (q * 1000000) : ℤ) : ℚ) / 1000000 := rfl
  rw [h, round6_intCast_div]

theorem round6_of_den_one (q : ℚ) (h : (q * 1000000).den = 1) : round6 q = q := by
  have h2 : (((q * 1000000).num : ℤ) : ℚ) = q * 1000000 := (Rat.den_eq_one_iff _).mp h
  have h3 : q = (((q * 1000000).num : ℤ) : ℚ) / 1000000 := by
    rw [h2]; field_simp
  rw [round6, ← h2]
  rw [rhe_intCast, ← h3]

theorem getLastD_eq_getD {α : Type} (l : List α) (d : α) :
    l.getLastD d = l.getD (l.length - 1) d := by
  induction l with
  | nil => rfl
  | cons a t ih =>
    cases t with
    | nil => rfl
    | cons b u => simpa using ih

theorem getLast?_of_ne_nil {α : Type} (l : List α) (d : α) (h : l ≠ []) :
    l.getLast? = some (l.getLastD d) := by
  induction l with
  | nil => exact absurd rfl h
  | cons a t ih =>
    cases t with
    | nil => rfl
    | cons b u => simpa using ih (by simp)

/-- `calc_returns_on` on a clean series of length at least 2: the record
the source builds, field by field. -/
theorem calc_returns_on_inject (s : List (Date × ℚ)) (h2 : 2 ≤ s.length) :
    calc_returns_on (inject s) = some
      { latest := some (round6 (s.getLastD dflt).2)
        d1 := if 2 ≤ s.length then
            some (safe_ratio_change (s.getLastD dflt).2 (s.getD (s.length - 2) dflt).2)
          else Option.none
        w1 := if 6 ≤ s.length then
            some (safe_ratio_change (s.getLastD dflt).2 (s.getD (s.length - 6) dflt).2)
          else Option.none
        m1 := if 22 ≤ s.length then
            some (safe_ratio_change (s.getLastD dflt).2 (s.getD (s.length - 22) dflt).2)
          else Option.none
        y1 := if 253 ≤ s.length then
            some (safe_ratio_change (s.getLastD dflt).2 (s.getD (s.length - 253) dflt).2)
          else Option.none
        qtd :=
          if 2 ≤ (s.filter (fun p => dle (quarter_start (s.getLastD dflt).1) p.1)).length then
            some (safe_ratio_change
              ((s.filter (fun p => dle (quarter_start (s.getLastD dflt).1) p.1)).getLastD dflt).2
              ((s.filter (fun p => dle (quarter_start (s.getLastD dflt).1) p.1)).headD dflt).2)
          else Option.none
        ytd :=
          if 2 ≤ (s.filter (fun p => dle (year_start (s.getLastD dflt).1) p.1)).length then
            some (safe_ratio_change
              ((s.filter (fun p => dle (year_start (s.getLastD dflt).1) p.1)).getLastD dflt).2
              ((s.filter (fun p => dle (year_start (s.getLastD dflt).1) p.1)).headD dflt).2)
          else Option.none } := by
  rw [calc_returns_on]
  simp only [dropna_inject]
  rw [if_neg (by omega)]

/-- `calculate_spread_changes` on a clean series of length at least 2. -/
theorem calculate_spread_changes_inject (s : List (Date × ℚ)) (h2 : 2 ≤ s.length) :
    calculate_spread_changes (inject s) = some
      { latest := some (round6 (s.getLastD dflt).2)
        d1 := if 2 ≤ s.length then
            some (some (round6 ((s.getLastD dflt).2 - (s.getD (s.length - 2) dflt).2)))
          else Option.none
        w1 := if 6 ≤ s.length then
            some (some (round6 ((s.getLastD dflt).2 - (s.getD (s.length - 6) dflt).2)))
          else Option.none
        m1 := if 22 ≤ s.length then
            some (some (round6 ((s.getLastD dflt).2 - (s.getD (s.length - 22) dflt).2)))
          else Option.none
        y1 := if 253 ≤ s.length then
            some (some (round6 ((s.getLastD dflt).2 - (s.getD (s.length - 253) dflt).2)))
          else Option.none
        qtd := Option.none
        ytd := Option.none } := by
  have hlen : (inject s).length = s.length := by simp [inject]
  have hne : s ≠ [] := by intro h; rw [h] at h2; simp at h2
  rw [calculate_spread_changes]
  rw [if_neg (by omega)]
  simp only [dropna_inject]
  rw [getLast?_of_ne_nil s dflt hne]

/-- The Yahoo loop, characterized: each instrument contributes
independently, as a function of its own row and fetch outcome. -/
theorem fetch_yahoo_eq (env : FetchEnv) (tmap : List (String × Option String)) :
    fetch_yahoo env tmap =
      tmap.filterMap (fun i => (i.2.bind (process_ticker env)).map (fun ms => (i.1, ms))) := by
  suffices h : ∀ (t : List (String × Option String)) (acc : List (String × MetricSet)),
      t.foldl (yahoo_step env) acc =
        acc ++ t.filterMap (fun i => (i.2.bind (process_ticker env)).map (fun ms => (i.1, ms))) by
    simpa [fetch_yahoo] using h tmap []
  intro t
  induction t with
  | nil => intro acc; simp
  | cons i r ih =>
    intro acc
    rw [List.foldl_cons, List.filterMap_cons]
    cases h2 : i.2 with
    | none => simp [yahoo_step, h2, ih]
    | some tk =>
      cases hp : process_ticker env tk with
      | none => simp [yahoo_step, h2, hp, ih]
      | some ms => simp [yahoo_step, h2, hp, ih]

theorem fetch_yahoo_append (env : FetchEnv) (t1 t2 : List (String × Option String)) :
    fetch_yahoo env (t1 ++ t2) = fetch_yahoo env t1 ++ fetch_yahoo env t2 := by
  simp [fetch_yahoo_eq, List.filterMap_append]

theorem fetch_yahoo_mem_keys (env : FetchEnv) (tmap : List (String × Option String))
    (name : String) :
    name ∈ (fetch_yahoo env tmap).map Prod.fst ↔
      ∃ tk, (name, some tk) ∈ tmap ∧ (process_ticker env tk).isSome := by
  rw [fetch_yahoo_eq]
  constructor
  · intro h
    rcases List.mem_map.mp h with ⟨pr, hpr, hfst⟩
    rcases List.mem_filterMap.mp hpr with ⟨i, hi, hseq⟩
    cases h2 : i.2 with
    | none => rw [h2] at hseq; simp at hseq
    | some tk =>
      rw [h2] at hseq
      cases hp : process_ticker env tk with
      | none => simp [hp] at hseq
      | some ms =>
        simp [hp] at hseq
        refine ⟨tk, ?_, by simp [hp]⟩
        have hi1 : i.1 = name := by rw [← hfst, ← hseq]
        have hieq : i = (name, some tk) := by
          cases i; simp only [Prod.mk.injEq]; exact ⟨hi1, h2⟩
        rwa [hieq] at hi
  · rintro ⟨tk, hmem, hs⟩
    rcases Option.isSome_iff_exists.mp hs with ⟨ms, hms⟩
    apply List.mem_map.mpr
    refine ⟨(name, ms), ?_, rfl⟩
    apply List.mem_filterMap.mpr
    exact ⟨(name, some tk), hmem, by simp [Option.bind, hms]⟩

theorem round6_of_int_mul (q : ℚ) (z : ℤ) (h : q * 1000000 = (z : ℚ)) :
    round6 q = (z : ℚ) / 1000000 := by
  rw [round6, h, rhe_intCast]

theorem round6_eq_of_floor_lt (q : ℚ) (z : ℤ) (hf : ⌊q * 1000000⌋ = z)
    (hlt : q * 1000000 - (z : ℚ) < 1/2) : round6 q = (z : ℚ) / 1000000 := by
  rw [round6, rhe, hf, if_pos hlt]

/-- The ratio of the spec's `1d` example: `105/99 - 1` rounds to `0.060606`. -/
theorem ratio_105_99 : safe_ratio_change 105 99 = some (0.060606 : ℚ) := by
  have h1 : ((105/99 - 1 : ℚ)) * 1000000 = 2000000/33 := by norm_num
  have hf : ⌊((105/99 - 1 : ℚ)) * 1000000⌋ = 60606 := by
    rw [h1, Int.floor_eq_iff]
    norm_num
  have hr : round6 (105/99 - 1) = ((60606 : ℤ) : ℚ) / 1000000 :=
    round6_eq_of_floor_lt _ _ hf (by rw [h1]; norm_num)
  rw [safe_ratio_change, if_neg (by norm_num : ¬(99 : ℚ) = 0), hr]
  norm_num

theorem ratio_121_110 : safe_ratio_change 121 110 = some (1/10 : ℚ) := by
  have h1 : ((121/110 - 1 : ℚ)) = 1/10 := by norm_num
  rw [safe_ratio_change, if_neg (by norm_num : ¬(110 : ℚ) = 0), h1,
    round6_of_int_mul (1/10) 100000 (by norm_num)]
  norm_num

theorem ratio_121_100 : safe_ratio_change 121 100 = some (21/100 : ℚ) := by
  have h1 : ((121/100 - 1 : ℚ)) = 21/100 := by norm_num
  rw [safe_ratio_change, if_neg (by norm_num : ¬(100 : ℚ) = 0), h1,
    round6_of_int_mul (21/100) 210000 (by norm_num)]
  norm_num

theorem ratio_15_10 : safe_ratio_change 15 10 = some (1/2 : ℚ) := by
  have h1 : ((15/10 - 1 : ℚ)) = 1/2 := by norm_num
  rw [safe_ratio_change, if_neg (by norm_num : ¬(10 : ℚ) = 0), h1,
    round6_of_int_mul (1/2) 500000 (by norm_num)]
  norm_num

theorem ratio_0_5 : safe_ratio_change 0 5 = some (-1 : ℚ) := by
  have h1 : ((0/5 - 1 : ℚ)) = -1 := by norm_num
  rw [safe_ratio_change, if_neg (by norm_num : ¬(5 : ℚ) = 0), h1,
    round6_of_int_mul (-1) (-1000000) (by norm_num)]
  norm_num

theorem round6_diff_46_43 : round6 ((4.6 : ℚ) - 4.3) = (0.3 : ℚ) := by
  rw [round6_of_int_mul _ 300000 (by norm_num)]
  norm_num

theorem round6_zero : round6 (0 : ℚ) = 0 := by
  rw [round6_of_int_mul _ 0 (by norm_num)]
  norm_num

/-- C5: the numeric sanitizer `safe_float` maps `None`, `NaN`, `±inf` and
non-numeric inputs to absent, maps every finite numeric input to its value
rounded to six decimal places, and is idempotent; a finite value that is
already a multiple of `10⁻⁶` is returned unchanged. -/
theorem C5_sanitizer :
    (safe_float PyVal.none = Option.none) ∧
    (safe_float PyVal.nan = Option.none) ∧
    (safe_float PyVal.inf = Option.none) ∧
    (safe_float PyVal.other = Option.none) ∧
    (∀ q : ℚ, safe_float (PyVal.num q) = some (round6 q)) ∧
    (∀ x : PyVal, safe_float (reembed (safe_float x)) = safe_float x) ∧
    (∀ q : ℚ, (q * 1000000).den = 1 → safe_float (PyVal.num q) = some q) := by
  refine ⟨rfl, rfl, rfl, rfl, fun q => rfl, ?_, ?_⟩
  · intro x
    cases x <;> simp [safe_float, reembed, round6_idem]
  · intro q h
    simp [safe_float, round6_of_den_one q h]

/-- Witness for C5 at the concrete input `3`. -/
theorem C5_sanitizer_witness :
    ((3 : ℚ) * 1000000).den = 1 ∧ safe_float (PyVal.num 3) = some 3 := by
  have h : ((3 : ℚ) * 1000000).den = 1 := by
    have h2 : (3 : ℚ) * 1000000 = ((3000000 : ℤ) : ℚ) := by norm_num
    rw [h2, Rat.den_intCast]
  exact ⟨h, C5_sanitizer.2.2.2.2.2.2 3 h⟩

/-- C1: in return mode, on a clean time-ascending series each windowed
metric key `1d/1w/1m/1y` is present in the dict iff the series has
strictly more points than the offset `{1,5,21,252}`, and its stored value
is the sanitized ratio of the last value to the value that many points
back from the end; for `[100, 102, 99, 105]` the `1d` value is
`105/99 - 1` rounded to `0.060606`; every exactly-6-point series has
`1w = series[5]/series[0] - 1` with `1m` and `1y` absent. -/
theorem C1_return_windowed_metrics :
    (∀ (s : List (Date × ℚ)), 2 ≤ s.length → ascending s = true →
      ∃ ms, calc_returns_on (inject s) = some ms ∧
        ms.d1 = (if 1 < s.length then
            some (safe_ratio_change (s.getLastD dflt).2 (s.getD (s.length - 2) dflt).2)
          else Option.none) ∧
        ms.w1 = (if 5 < s.length then
            some (safe_ratio_change (s.getLastD dflt).2 (s.getD (s.length - 6) dflt).2)
          else Option.none) ∧
        ms.m1 = (if 21 < s.length then
            some (safe_ratio_change (s.getLastD dflt).2 (s.getD (s.length - 22) dflt).2)
          else Option.none) ∧
        ms.y1 = (if 252 < s.length then
            some (safe_ratio_change (s.getLastD dflt).2 (s.getD (s.length - 253) dflt).2)
          else Option.none)) ∧
    (∃ ms, calc_returns_on (inject sample4) = some ms ∧
      ms.d1 = some (some (0.060606 : ℚ))) ∧
    (∀ (s : List (Date × ℚ)), s.length = 6 → ascending s = true →
      ∃ ms, calc_returns_on (inject s) = some ms ∧
        ms.w1 = some (safe_ratio_change (s.getD 5 dflt).2 (s.getD 0 dflt).2) ∧
        ms.m1 = Option.none ∧ ms.y1 = Option.none) := by
  refine ⟨?_, ?_, ?_⟩
  · intro s h2 _
    refine ⟨_, calc_returns_on_inject s h2, ?_, ?_, ?_, ?_⟩
    · exact if_congr (by omega) rfl rfl
    · exact if_congr (by omega) rfl rfl
    · exact if_congr (by omega) rfl rfl
    · exact if_congr (by omega) rfl rfl
  · refine ⟨_, calc_returns_on_inject sample4 (by rw [sample4]; simp), ?_⟩
    have hlast : sample4.getLastD dflt = (D 2024 1 5, 105) := rfl
    have hprev : sample4.getD (sample4.length - 2) dflt = (D 2024 1 4, 99) := rfl
    rw [if_pos (by rw [sample4]; simp), hlast, hprev]
    rw [ratio_105_99]
  · intro s h6 _
    refine ⟨_, calc_returns_on_inject s (by omega), ?_, ?_, ?_⟩
    · rw [getLastD_eq_getD, h6]
      norm_num
    · rw [h6]
      norm_num
    · rw [h6]
      norm_num

/-- Witness for C1 at the concrete series `sample4` and `sample6`. -/
theorem C1_return_windowed_metrics_witness :
    (2 ≤ sample4.length ∧ ascending sample4 = true ∧
      ∃ ms, calc_returns_on (inject sample4) = some ms ∧
        ms.d1 = (if 1 < sample4.length then
            some (safe_ratio_change (sample4.getLastD dflt).2
              (sample4.getD (sample4.length - 2) dflt).2)
          else Option.none) ∧
        ms.w1 = (if 5 < sample4.length then
            some (safe_ratio_change (sample4.getLastD dflt).2
              (sample4.getD (sample4.length - 6) dflt).2)
          else Option.none) ∧
        ms.m1 = (if 21 < sample4.length then
            some (safe_ratio_change (sample4.getLastD dflt).2
              (sample4.getD (sample4.length - 22) dflt).2)
          else Option.none) ∧
        ms.y1 = (if 252 < sample4.length then
            some (safe_ratio_change (sample4.getLastD dflt).2
              (sample4.getD (sample4.length - 253) dflt).2)
          else Option.none)) ∧
    (sample6.length = 6 ∧ ascending sample6 = true ∧
      ∃ ms, calc_returns_on (inject sample6) = some ms ∧
        ms.w1 = some (safe_ratio_change (sample6.getD 5 dflt).2 (sample6.getD 0 dflt).2) ∧
        ms.m1 = Option.none ∧ ms.y1 = Option.none) := by
  refine ⟨⟨by decide, by decide, ?_⟩, ⟨by decide, by decide, ?_⟩⟩
  · exact C1_return_windowed_metrics.1 sample4 (by decide) (by decide)
  · exact C1_return_windowed_metrics.2.2 sample6 (by decide) (by decide)

/-- C2 counterexample: a series with exactly one valid point yields no
metrics dict at all from `calculate_returns` (the claim asserts a
non-empty Metric Set containing `latest`). -/
theorem C2_counterexample :
    dropna sample1 = [(D 2024 1 2, 100)] ∧ calc_returns_on sample1 = Option.none :=
  ⟨rfl, rfl⟩

/-- C2 (amended): with at least 2 valid points the metrics dict exists and
holds `latest` (the sanitized last valid value); with fewer than 2 valid
points `calculate_returns` yields no dict; `calculate_spread_changes`
yields no dict when the raw series is shorter than 2 and a latest-only
dict when the raw series has ≥ 2 entries but exactly one valid point. -/
theorem C2_latest_presence_amended :
    (∀ s : RawSeries, 2 ≤ (dropna s).length →
      ∃ ms, calc_returns_on s = some ms ∧
        ms.latest = some (round6 ((dropna s).getLastD dflt).2)) ∧
    (∀ s : RawSeries, (dropna s).length < 2 → calc_returns_on s = Option.none) ∧
    (∀ s : RawSeries, s.length < 2 → calculate_spread_changes s = Option.none) ∧
    (∀ (s : RawSeries) (p : Date × ℚ), 2 ≤ s.length → dropna s = [p] →
      calculate_spread_changes s = some
        ⟨some (round6 p.2), Option.none, Option.none, Option.none, Option.none,
         Option.none, Option.none⟩) := by
  refine ⟨?_, ?_, ?_, ?_⟩
  · intro s h
    rw [calc_returns_on]
    rw [if_neg (by omega)]
    exact ⟨_, rfl, rfl⟩
  · intro s h
    rw [calc_returns_on]
    rw [if_pos h]
  · intro s h
    rw [calculate_spread_changes]
    rw [if_pos h]
  · intro s p h2 hdp
    rw [calculate_spread_changes]
    rw [if_neg (by omega)]
    rw [hdp]
    simp

/-- Witness for C2 (amended) at `sample4` (two-point-plus series) and
`sampleHalfNaN` (one valid point among two raw entries). -/
theorem C2_latest_presence_amended_witness :
    (2 ≤ (dropna (inject sample4)).length ∧
      ∃ ms, calc_returns_on (inject sample4) = some ms ∧
        ms.latest = some (round6 ((dropna (inject sample4)).getLastD dflt).2)) ∧
    (2 ≤ sampleHalfNaN.length ∧ dropna sampleHalfNaN = [(D 2024 1 3, 2)] ∧
      calculate_spread_changes sampleHalfNaN = some
        ⟨some (round6 2), Option.none, Option.none, Option.none, Option.none,
         Option.none, Option.none⟩) := by
  constructor
  · exact ⟨by decide, C2_latest_presence_amended.1 _ (by decide)⟩
  · exact ⟨by decide, rfl,
      C2_latest_presence_amended.2.2.2 sampleHalfNaN (D 2024 1 3, 2) (by decide) rfl⟩

/-- C3: in return mode the QTD key is computed over the subseries of
timestamps on/after day 1 of month `((month-1)//3)*3 + 1` of the last
observation's quarter, the YTD key over the subseries on/after January 1
of its year; each filter boundary is inclusive; each key is present iff
its filtered window has at least 2 points, and its value is the sanitized
ratio of the window's last to its first point; for a most-recent
timestamp of 2024-08-15 the quarter start is 2024-07-01 and the year
start 2024-01-01. -/
theorem C3_qtd_ytd_windows :
    (∀ (s : List (Date × ℚ)), 2 ≤ s.length → ascending s = true →
      ∃ ms, calc_returns_on (inject s) = some ms ∧
        ms.qtd =
          (if 2 ≤ (s.filter (fun p => dle (quarter_start (s.getLastD dflt).1) p.1)).length then
            some (safe_ratio_change
              ((s.filter (fun p => dle (quarter_start (s.getLastD dflt).1) p.1)).getLastD dflt).2
              ((s.filter (fun p => dle (quarter_start (s.getLastD dflt).1) p.1)).headD dflt).2)
          else Option.none) ∧
        ms.ytd =
          (if 2 ≤ (s.filter (fun p => dle (year_start (s.getLastD dflt).1) p.1)).length then
            some (safe_ratio_change
              ((s.filter (fun p => dle (year_start (s.getLastD dflt).1) p.1)).getLastD dflt).2
              ((s.filter (fun p => dle (year_start (s.getLastD dflt).1) p.1)).headD dflt).2)
          else Option.none)) ∧
    quarter_start (D 2024 8 15) = D 2024 7 1 ∧
    year_start (D 2024 8 15) = D 2024 1 1 ∧
    (∀ dt : Date, dle (quarter_start dt) (quarter_start dt) = true) ∧
    (∃ ms, calc_returns_on (inject sampleQ) = some ms ∧
      ms.qtd = some (some (1/10 : ℚ)) ∧ ms.ytd = some (some (21/100 : ℚ))) := by
  refine ⟨?_, rfl, rfl, ?_, ?_⟩
  · intro s h2 _
    exact ⟨_, calc_returns_on_inject s h2, rfl, rfl⟩
  · intro dt
    simp [dle]
  · have hms : calc_returns_on (inject sampleQ) = some
        { latest := some (round6 121), d1 := some (safe_ratio_change 121 110),
          w1 := Option.none, m1 := Option.none, y1 := Option.none,
          qtd := some (safe_ratio_change 121 110),
          ytd := some (safe_ratio_change 121 100) } := rfl
    refine ⟨_, hms, ?_, ?_⟩
    · show some (safe_ratio_change 121 110) = some (some (1/10 : ℚ))
      rw [ratio_121_110]
    · show some (safe_ratio_change 121 100) = some (some (21/100 : ℚ))
      rw [ratio_121_100]

/-- Witness for C3 at the concrete series `sampleQ`, which crosses the
2024-07-01 quarter boundary with a point exactly on it. -/
theorem C3_qtd_ytd_windows_witness :
    2 ≤ sampleQ.length ∧ ascending sampleQ = true ∧
      ∃ ms, calc_returns_on (inject sampleQ) = some ms ∧
        ms.qtd =
          (if 2 ≤ (sampleQ.filter
              (fun p => dle (quarter_start (sampleQ.getLastD dflt).1) p.1)).length then
            some (safe_ratio_change
              ((sampleQ.filter
                (fun p => dle (quarter_start (sampleQ.getLastD dflt).1) p.1)).getLastD dflt).2
              ((sampleQ.filter
                (fun p => dle (quarter_start (sampleQ.getLastD dflt).1) p.1)).headD dflt).2)
          else Option.none) ∧
        ms.ytd =
          (if 2 ≤ (sampleQ.filter
              (fun p => dle (year_start (sampleQ.getLastD dflt).1) p.1)).length then
            some (safe_ratio_change
              ((sampleQ.filter
                (fun p => dle (year_start (sampleQ.getLastD dflt).1) p.1)).getLastD dflt).2
              ((sampleQ.filter
                (fun p => dle (year_start (sampleQ.getLastD dflt).1) p.1)).headD dflt).2)
          else Option.none) :=
  ⟨by decide, by decide, C3_qtd_ytd_windows.1 sampleQ (by decide) (by decide)⟩

/-- C4: in delta mode each windowed key `1d/1w/1m/1y` is present iff the
series has strictly more points than the offset `{1,5,21,252}` and stores
the (sanitized) difference between the last value and the value that many
points back; QTD and YTD are never present in a delta-mode dict; for
`[4.5, 4.3, 4.6]` the `1d` value is `4.6 - 4.3 = 0.3`. -/
theorem C4_delta_windowed_metrics :
    (∀ (s : List (Date × ℚ)), 2 ≤ s.length →
      ∃ ms, calculate_spread_changes (inject s) = some ms ∧
        ms.d1 = (if 1 < s.length then
            some (some (round6 ((s.getLastD dflt).2 - (s.getD (s.length - 2) dflt).2)))
          else Option.none) ∧
        ms.w1 = (if 5 < s.length then
            some (some (round6 ((s.getLastD dflt).2 - (s.getD (s.length - 6) dflt).2)))
          else Option.none) ∧
        ms.m1 = (if 21 < s.length then
            some (some (round6 ((s.getLastD dflt).2 - (s.getD (s.length - 22) dflt).2)))
          else Option.none) ∧
        ms.y1 = (if 252 < s.length then
            some (some (round6 ((s.getLastD dflt).2 - (s.getD (s.length - 253) dflt).2)))
          else Option.none)) ∧
    (∀ (s : RawSeries) (ms : MetricSet), calculate_spread_changes s = some ms →
      ms.qtd = Option.none ∧ ms.ytd = Option.none) ∧
    (∃ ms, calculate_spread_changes (inject sample3) = some ms ∧
      ms.d1 = some (some (0.3 : ℚ))) := by
  refine ⟨?_, ?_, ?_⟩
  · intro s h2
    refine ⟨_, calculate_spread_changes_inject s h2, ?_, ?_, ?_, ?_⟩
    · exact if_congr (by omega) rfl rfl
    · exact if_congr (by omega) rfl rfl
    · exact if_congr (by omega) rfl rfl
    · exact if_congr (by omega) rfl rfl
  · intro s ms h
    simp only [calculate_spread_changes] at h
    by_cases hl : s.length < 2
    · rw [if_pos hl] at h
      exact absurd h (by simp)
    · rw [if_neg hl] at h
      cases hg : (dropna s).getLast? with
      | none =>
        rw [hg] at h
        exact absurd h (by simp)
      | some lp =>
        rw [hg] at h
        injection h with h2
        rw [← h2]
        exact ⟨rfl, rfl⟩
  · have hms : calculate_spread_changes (inject sample3) = some
        { latest := some (round6 4.6), d1 := some (some (round6 ((4.6 : ℚ) - 4.3))),
          w1 := Option.none, m1 := Option.none, y1 := Option.none,
          qtd := Option.none, ytd := Option.none } := rfl
    refine ⟨_, hms, ?_⟩
    show some (some (round6 ((4.6 : ℚ) - 4.3))) = some (some (0.3 : ℚ))
    rw [round6_diff_46_43]

/-- Witness for C4 at the concrete series `sample3`. -/
theorem C4_delta_windowed_metrics_witness :
    (2 ≤ sample3.length ∧
      ∃ ms, calculate_spread_changes (inject sample3) = some ms ∧
        ms.d1 = (if 1 < sample3.length then
            some (some (round6 ((sample3.getLastD dflt).2
              - (sample3.getD (sample3.length - 2) dflt).2)))
          else Option.none) ∧
        ms.w1 = (if 5 < sample3.length then
            some (some (round6 ((sample3.getLastD dflt).2
              - (sample3.getD (sample3.length - 6) dflt).2)))
          else Option.none) ∧
        ms.m1 = (if 21 < sample3.length then
            some (some (round6 ((sample3.getLastD dflt).2
              - (sample3.getD (sample3.length - 22) dflt).2)))
          else Option.none) ∧
        ms.y1 = (if 252 < sample3.length then
            some (some (round6 ((sample3.getLastD dflt).2
              - (sample3.getD (sample3.length - 253) dflt).2)))
          else Option.none)) ∧
    (∃ ms, calculate_spread_changes (inject sample3) = some ms ∧
      ms.qtd = Option.none ∧ ms.ytd = Option.none) := by
  constructor
  · exact ⟨by decide, C4_delta_windowed_metrics.1 sample3 (by decide)⟩
  · obtain ⟨ms, hms, _⟩ := C4_delta_windowed_metrics.2.2
    exact ⟨ms, hms, C4_delta_windowed_metrics.2.1 _ ms hms⟩

/-- C8 counterexample: on the two-column frame `frameAB` (no close column,
no ratio tag) the source's adapter takes the FIRST column while the
claimed precedence (close, else ratio-tagged, else LAST column) takes the
last one; the two selections disagree. -/
theorem C8_counterexample :
    select_value_col frameAB = colA ∧ spec_column_rule frameAB = colB ∧
      select_value_col frameAB ≠ spec_column_rule frameAB := by
  refine ⟨rfl, rfl, ?_⟩
  intro h
  have h2 : colA = colB := h
  have h3 : (1 : ℚ) = 3 :=
    congrArg (fun l => (l.headD (D 0 0 0, Option.none)).2.getD 0) h2
  norm_num at h3

/-- C8 (amended): no single three-step precedence is implemented.
`calculate_returns` selects the column named `Close` when present and
otherwise the FIRST column (never consulting ratio tags); the CBOE
adapter selects the first column whose uppercased name contains `P/C` or
`RATIO` and otherwise the LAST column (never consulting a close name). -/
theorem C8_column_selection_amended :
    (∀ (f : Frame) (c : String × RawSeries),
      f.find? (fun x => x.1 == "Close") = some c → select_value_col f = c.2) ∧
    (∀ f : Frame, "Close" ∉ f.map Prod.fst → select_value_col f = (f.headD ("", [])).2) ∧
    (∀ (cols : Frame) (c : String × RawSeries),
      cols.find? (fun x => ratio_tagged x.1) = some c → cboe_select cols = c.2) ∧
    (∀ cols : Frame, (∀ c ∈ cols, ratio_tagged c.1 = false) →
      cboe_select cols = (cols.getLastD ("", [])).2) := by
  refine ⟨?_, ?_, ?_, ?_⟩
  · intro f c h
    rw [select_value_col, h]
  · intro f h
    have hn : f.find? (fun x => x.1 == "Close") = Option.none := by
      rw [List.find?_eq_none]
      intro x hx
      simp only [beq_iff_eq]
      intro he
      exact h (List.mem_map.mpr ⟨x, hx, he⟩)
    rw [select_value_col, hn]
  · intro cols c h
    rw [cboe_select, h]
  · intro cols h
    have hn : cols.find? (fun x => ratio_tagged x.1) = Option.none := by
      rw [List.find?_eq_none]
      intro x hx
      rw [h x hx]
      exact Bool.false_ne_true
    rw [cboe_select, hn]

/-- Witness for C8 (amended): a frame with an exact close column, a frame
without one, CBOE columns with a tagged column, and CBOE columns without
one. -/
theorem C8_column_selection_amended_witness :
    (frameClose.find? (fun x => x.1 == "Close") = some ("Close", colC) ∧
      select_value_col frameClose = colC) ∧
    ("Close" ∉ frameAB.map Prod.fst ∧ select_value_col frameAB = (frameAB.headD ("", [])).2) ∧
    (framePC.find? (fun x => ratio_tagged x.1) = some ("P/C RATIO", colC) ∧
      cboe_select framePC = colC) ∧
    ((∀ c ∈ frameAB, ratio_tagged c.1 = false) ∧
      cboe_select frameAB = (frameAB.getLastD ("", [])).2) := by
  refine ⟨⟨rfl, C8_column_selection_amended.1 frameClose ("Close", colC) rfl⟩,
    ⟨by decide, C8_column_selection_amended.2.1 frameAB (by decide)⟩,
    ⟨rfl, C8_column_selection_amended.2.2.1 framePC ("P/C RATIO", colC) rfl⟩,
    ⟨by decide, C8_column_selection_amended.2.2.2 frameAB (by decide)⟩⟩

/-- C6: the orchestrator's Yahoo loop skips `None`-ticker instruments,
isolates every per-instrument failure (each instrument's contribution is
a function of its own row and fetch outcome; a failure contributes
nothing and leaves the rest untouched), and records exactly the
instruments whose fetch and computation were accepted; `fetch_all_data`
is the Yahoo results followed by the FRED and CBOE entries, each of which
is present exactly when its (pre-caught) series is non-empty and its
computation yields a dict. -/
theorem C6_orchestrator_isolation :
    (∀ (env : FetchEnv) (tmap : List (String × Option String)),
      fetch_yahoo env tmap =
        tmap.filterMap (fun i => (i.2.bind (process_ticker env)).map (fun ms => (i.1, ms)))) ∧
    (∀ (env : FetchEnv) (t1 t2 : List (String × Option String)),
      fetch_yahoo env (t1 ++ t2) = fetch_yahoo env t1 ++ fetch_yahoo env t2) ∧
    (∀ (env : FetchEnv) (tmap : List (String × Option String)) (name : String),
      name ∈ (fetch_yahoo env tmap).map Prod.fst ↔
        ∃ tk, (name, some tk) ∈ tmap ∧ (process_ticker env tk).isSome) ∧
    (∀ (name : String) (r : Option RawSeries),
      spread_entry name r = [] ∨
        ∃ (s : RawSeries) (dd : MetricSet), r = some s ∧ 0 < s.length ∧
          calculate_spread_changes s = some dd ∧ spread_entry name r = [(name, dd)]) ∧
    (∀ env : FetchEnv, fetch_all_data env =
      fetch_yahoo env TICKER_MAP ++ spread_entry "垃圾债券利差" env.fred
        ++ spread_entry "PUT/CALL" env.cboe) := by
  refine ⟨fetch_yahoo_eq, fetch_yahoo_append, fetch_yahoo_mem_keys, ?_, fun env => rfl⟩
  intro name r
  cases r with
  | none => exact Or.inl rfl
  | some s =>
    by_cases h0 : s.length = 0
    · left
      simp only [spread_entry]
      rw [if_pos h0]
    · cases hc : calculate_spread_changes s with
      | none =>
        left
        simp only [spread_entry]
        rw [if_neg h0, hc]
      | some dd =>
        right
        refine ⟨s, dd, rfl, by omega, hc, ?_⟩
        simp only [spread_entry]
        rw [if_neg h0, hc]

theorem process_ticker_ok_eq (env : FetchEnv) (tk : String) (df : Frame) (ms : MetricSet)
    (henv : env.yahoo tk = YOutcome.ok df) (hcr : calculate_returns df = some ms) :
    process_ticker env tk = (if truthy ms.latest then some ms else Option.none) := by
  have hne : frameEmpty df = false := by
    by_contra hc
    have ht : frameEmpty df = true := by
      revert hc
      cases frameEmpty df <;> simp
    rw [calculate_returns, if_pos ht] at hcr
    exact absurd hcr (by simp)
  simp only [process_ticker, henv, hne, hcr]
  simp

theorem frameZero_returns : calculate_returns frameZero = some msZero := by
  have h1 : calculate_returns frameZero = some
      { latest := some (round6 0), d1 := some (safe_ratio_change 0 5),
        w1 := Option.none, m1 := Option.none, y1 := Option.none,
        qtd := some (safe_ratio_change 0 5), ytd := some (safe_ratio_change 0 5) } := rfl
  rw [h1, round6_zero, ratio_0_5]
  rfl

theorem frameOK_returns : calculate_returns frameOK = some msOK := rfl

theorem round6_six : round6 (6 : ℚ) = 6 := by
  rw [round6_of_int_mul 6 6000000 (by norm_num)]
  norm_num

theorem truthy_msOK : truthy msOK.latest = true := by
  show truthy (some (round6 6)) = true
  rw [round6_six]
  simp [truthy]

theorem truthy_msZero : truthy msZero.latest = false := by
  show truthy (some 0) = false
  simp [truthy]

/-- Witness for C6: with `envOK` (one good ticker `T`) the instrument `X`
appears among the keys, and the loop distributes over list append. -/
theorem C6_orchestrator_isolation_witness :
    ("X" ∈ (fetch_yahoo envOK tmapZero).map Prod.fst) ∧
    fetch_yahoo envOK (tmapZero ++ tmapNone) =
      fetch_yahoo envOK tmapZero ++ fetch_yahoo envOK tmapNone := by
  constructor
  · apply (C6_orchestrator_isolation.2.2.1 envOK tmapZero "X").mpr
    refine ⟨"T", by decide, ?_⟩
    rw [process_ticker_ok_eq envOK "T" frameOK msOK rfl frameOK_returns, truthy_msOK]
    simp
  · exact C6_orchestrator_isolation.2.1 envOK tmapZero tmapNone

/-- C10: a Yahoo-sourced instrument is recorded only when its computed
metrics dict exists and the stored `收盘价` value is truthy; in
particular a dict whose sanitized latest value is exactly `0` (or absent)
is dropped from the result set even when its other windowed metrics were
computed. -/
theorem C10_truthy_latest_gate :
    (∀ (env : FetchEnv) (tk : String) (ms : MetricSet),
      process_ticker env tk = some ms → truthy ms.latest = true) ∧
    (∀ (env : FetchEnv) (tk : String) (df : Frame) (ms : MetricSet),
      env.yahoo tk = YOutcome.ok df → calculate_returns df = some ms →
        process_ticker env tk = (if truthy ms.latest then some ms else Option.none)) ∧
    (∀ (env : FetchEnv) (tmap : List (String × Option String)) (name tk : String)
        (df : Frame) (ms : MetricSet),
      (tmap.map Prod.fst).Nodup → (name, some tk) ∈ tmap →
      env.yahoo tk = YOutcome.ok df → calculate_returns df = some ms →
      truthy ms.latest = false →
        name ∉ (fetch_yahoo env tmap).map Prod.fst) := by
  refine ⟨?_, ?_, ?_⟩
  · intro env tk ms h
    cases hy : env.yahoo tk with
    | raise => simp [process_ticker, hy] at h
    | nodl => simp [process_ticker, hy] at h
    | ok df =>
      simp only [process_ticker, hy] at h
      by_cases he : frameEmpty df = true
      · rw [if_pos he] at h
        exact absurd h (by simp)
      · rw [if_neg he] at h
        cases hc : calculate_returns df with
        | none => simp [hc] at h
        | some msc =>
          by_cases ht : truthy msc.latest = true
          · simp only [hc, ht, if_true] at h
            injection h with h2
            rw [← h2]
            exact ht
          · simp [hc, ht] at h
  · exact process_ticker_ok_eq
  · intro env tmap name tk df ms hnd hmem henv hcr hfalse hin
    have hpt : process_ticker env tk = Option.none := by
      rw [process_ticker_ok_eq env tk df ms henv hcr, hfalse]
      simp
    rcases (fetch_yahoo_mem_keys env tmap name).mp hin with ⟨tk2, hmem2, hsome⟩
    have heq : (name, some tk2) = (name, some tk) :=
      List.inj_on_of_nodup_map hnd hmem2 hmem rfl
    have htk : tk2 = tk := by
      injection heq with _ h2
      injection h2
    rw [htk, hpt] at hsome
    exact absurd hsome (by simp)

/-- Witness for C10 at `envZero`/`frameZero`: the latest value sanitizes
to exactly `0`, the `1d` metric is computed (`-1`), and instrument `X` is
absent from the result keys. -/
theorem C10_truthy_latest_gate_witness :
    (tmapZero.map Prod.fst).Nodup ∧ ("X", some "T") ∈ tmapZero ∧
      envZero.yahoo "T" = YOutcome.ok frameZero ∧
      calculate_returns frameZero = some msZero ∧
      msZero.latest = some 0 ∧ msZero.d1 = some (some (-1)) ∧
      truthy msZero.latest = false ∧
      "X" ∉ (fetch_yahoo envZero tmapZero).map Prod.fst := by
  refine ⟨by decide, by decide, rfl, frameZero_returns, rfl, rfl, truthy_msZero, ?_⟩
  exact C10_truthy_latest_gate.2.2 envZero tmapZero "X" "T" frameZero msZero
    (by decide) (by decide) rfl frameZero_returns truthy_msZero

theorem optEntry_mem (key k : String) (v : ℚ) (o : Option ℚ) :
    (k, v) ∈ optEntry key o ↔ k = key ∧ o = some v := by
  cases o with
  | none => simp [optEntry]
  | some w =>
    simp only [optEntry, List.mem_singleton, Prod.mk.injEq, Option.some.injEq]
    constructor
    · rintro ⟨ha, hb⟩
      exact ⟨ha, hb.symm⟩
    · rintro ⟨ha, hb⟩
      exact ⟨ha, hb.symm⟩

/-- The properties written by one update call are exactly the keys whose
`data.get` is non-`None`. -/
theorem props_numbers_mem (dd : MetricSet) (today k : String) (v : ℚ) :
    (k, v) ∈ (update_notion_page_props dd today).numbers ↔ mget dd k = some v := by
  simp only [update_notion_page_props, List.mem_append, optEntry_mem]
  by_cases h1 : k = "收盘价"
  · subst h1; simp [mget]
  · by_cases h2 : k = "1天"
    · subst h2; simp [mget]
    · by_cases h3 : k = "1星期"
      · subst h3; simp [mget]
      · by_cases h4 : k = "1个月"
        · subst h4; simp [mget]
        · by_cases h5 : k = "1年"
          · subst h5; simp [mget]
          · by_cases h6 : k = "QTD"
            · subst h6; simp [mget]
            · by_cases h7 : k = "YTD"
              · subst h7; simp [mget]
              · simp [mget, h1, h2, h3, h4, h5, h6, h7]

/-- C7: remote publishing issues an update call exactly for the rows whose
display name is a key of the result set; the payload of each call writes
exactly the metric entries whose stored value is non-`None`, plus the
date stamp; unmatched (or nameless) rows receive no call. -/
theorem C7_publish_matching :
    (∀ (md : List (String × MetricSet)) (pages : List Page) (today : String)
        (c : String × UpdatePayload),
      c ∈ update_notion_database md pages today →
        ∃ p ∈ pages, c.1 = p.id ∧ ∃ n dd, p.name = some n ∧
          List.lookup n md = some dd ∧ c.2 = update_notion_page_props dd today) ∧
    (∀ (md : List (String × MetricSet)) (pages : List Page) (today : String)
        (p : Page) (n : String) (dd : MetricSet),
      p ∈ pages → p.name = some n → List.lookup n md = some dd →
        (p.id, update_notion_page_props dd today) ∈ update_notion_database md pages today) ∧
    (∀ (md : List (String × MetricSet)) (pages : List Page) (today : String) (p : Page),
      (pages.map Page.id).Nodup → p ∈ pages →
      (∀ n, p.name = some n → List.lookup n md = Option.none) →
        p.id ∉ (update_notion_database md pages today).map Prod.fst) ∧
    (∀ (dd : MetricSet) (today k : String) (v : ℚ),
      ((k, v) ∈ (update_notion_page_props dd today).numbers ↔ mget dd k = some v)) ∧
    (∀ (dd : MetricSet) (today : String),
      (update_notion_page_props dd today).dateStamp = today) := by
  refine ⟨?_, ?_, ?_, props_numbers_mem, fun dd today => rfl⟩
  · intro md pages today c hc
    rcases List.mem_filterMap.mp hc with ⟨p, hp, hf⟩
    cases hn : p.name with
    | none => simp [hn] at hf
    | some n =>
      cases hl : List.lookup n md with
      | none => simp [hn, hl] at hf
      | some dd =>
        simp only [hn, hl] at hf
        injection hf with h2
        exact ⟨p, hp, by rw [← h2], n, dd, hn, hl, by rw [← h2]⟩
  · intro md pages today p n dd hp hn hl
    exact List.mem_filterMap.mpr ⟨p, hp, by simp [hn, hl]⟩
  · intro md pages today p hnd hp hnone hin
    rcases List.mem_map.mp hin with ⟨c, hc, hcid⟩
    rcases List.mem_filterMap.mp hc with ⟨p2, hp2, hf⟩
    cases hn : p2.name with
    | none => simp [hn] at hf
    | some n =>
      cases hl : List.lookup n md with
      | none => simp [hn, hl] at hf
      | some dd =>
        simp only [hn, hl] at hf
        have hid : p2.id = p.id := by
          injection hf with h2
          rw [← hcid, ← h2]
        have hpp : p2 = p := List.inj_on_of_nodup_map hnd hp2 hp hid
        rw [hpp] at hn
        rw [hnone n hn] at hl
        exact absurd hl (by simp)

/-- Witness for C7: result set `{X}` against three rows — `X` (matched),
`Y` (unmatched), and a nameless row; only `X`'s page receives a call. -/
theorem C7_publish_matching_witness :
    (pageX ∈ [pageX, pageY, pageAnon] ∧ pageX.name = some "X" ∧
      List.lookup "X" [("X", msOK)] = some msOK ∧
      ("pid1", update_notion_page_props msOK "2024-10-12") ∈
        update_notion_database [("X", msOK)] [pageX, pageY, pageAnon] "2024-10-12") ∧
    (([pageX, pageY, pageAnon].map Page.id).Nodup ∧
      pageY.id ∉ (update_notion_database [("X", msOK)]
        [pageX, pageY, pageAnon] "2024-10-12").map Prod.fst ∧
      pageAnon.id ∉ (update_notion_database [("X", msOK)]
        [pageX, pageY, pageAnon] "2024-10-12").map Prod.fst) := by
  have hY : ∀ n, pageY.name = some n → List.lookup n [("X", msOK)] = Option.none := by
    intro n hn
    have h2 : some "Y" = some n := hn
    injection h2 with h3
    rw [← h3]
    rfl
  have hA : ∀ n, pageAnon.name = some n → List.lookup n [("X", msOK)] = Option.none := by
    intro n hn
    have h2 : (Option.none : Option String) = some n := hn
    exact absurd h2 (by simp)
  refine ⟨⟨by decide, rfl, rfl, ?_⟩, by decide, ?_, ?_⟩
  · exact C7_publish_matching.2.1 [("X", msOK)] [pageX, pageY, pageAnon] "2024-10-12"
      pageX "X" msOK (by decide) rfl rfl
  · exact C7_publish_matching.2.2.1 [("X", msOK)] [pageX, pageY, pageAnon] "2024-10-12"
      pageY (by decide) (by decide) hY
  · exact C7_publish_matching.2.2.1 [("X", msOK)] [pageX, pageY, pageAnon] "2024-10-12"
      pageAnon (by decide) (by decide) hA

theorem fred_secondary_snd (sec : FredAttempt) : (fred_secondary sec).2 = true := by
  cases sec with
  | raise => rfl
  | http st2 rows2 =>
    by_cases h : st2 = 200 <;> simp [fred_secondary, h]

/-- C9 counterexample: with an API key, a primary 200 response carrying one
observation whose value fails numeric parsing yields an EMPTY cleaned
series, yet the secondary download is not attempted — refuting the claimed
"secondary attempted iff primary unavailable or yields empty data". -/
theorem C9_counterexample :
    ¬ ((get_fred_data fredCE).2 = true ↔
      (fredCE.hasKey = false ∨ fredCE.primary = FredAttempt.raise ∨
        ∃ st rows, fredCE.primary = FredAttempt.http st rows ∧
          (st ≠ 200 ∨ fred_clean rows = []))) := by
  intro h
  have h2 : (get_fred_data fredCE).2 = false := rfl
  have h3 : fredCE.hasKey = false ∨ fredCE.primary = FredAttempt.raise ∨
      ∃ st rows, fredCE.primary = FredAttempt.http st rows ∧
        (st ≠ 200 ∨ fred_clean rows = []) :=
    Or.inr (Or.inr ⟨200, [(D 2024 1 2, Option.none)], rfl, Or.inr rfl⟩)
  have h4 := h.mpr h3
  rw [h2] at h4
  exact absurd h4 (by simp)

/-- C9 (amended): the two strategies are tried in order; the secondary is
attempted iff the primary is skipped for lack of an API key, or completes
with a non-200 status or an empty observations list.  An exception in the
primary aborts the whole fetch without the secondary being attempted; a
200 primary response with non-empty observations is returned at once,
even when every observation fails numeric parsing; and every failure path
returns no-data rather than raising. -/
theorem C9_fred_fallback_amended :
    (∀ env : FredEnv, (get_fred_data env).2 = true ↔
      (env.hasKey = false ∨
        ∃ st rows, env.primary = FredAttempt.http st rows ∧ (st ≠ 200 ∨ rows = []))) ∧
    (∀ env : FredEnv, env.hasKey = true → env.primary = FredAttempt.raise →
      get_fred_data env = (Option.none, false)) ∧
    (∀ (env : FredEnv) (st : ℕ) (rows : RawSeries), env.hasKey = true →
      env.primary = FredAttempt.http st rows → st = 200 → rows ≠ [] →
      get_fred_data env = (some (fred_clean rows), false)) ∧
    (∀ env : FredEnv, (get_fred_data env).2 = true → env.secondary = FredAttempt.raise →
      (get_fred_data env).1 = Option.none) ∧
    (∀ (env : FredEnv) (st2 : ℕ) (rows2 : RawSeries), (get_fred_data env).2 = true →
      env.secondary = FredAttempt.http st2 rows2 →
      get_fred_data env =
        ((if st2 = 200 then some (fred_clean rows2) else Option.none), true)) := by
  have hsec : ∀ (sec : FredAttempt) (st2 : ℕ) (rows2 : RawSeries),
      sec = FredAttempt.http st2 rows2 →
      fred_secondary sec = ((if st2 = 200 then some (fred_clean rows2) else Option.none), true) := by
    intro sec st2 rows2 hs
    rw [hs, fred_secondary]
    by_cases h : st2 = 200 <;> simp [h]
  have hgo : ∀ (env : FredEnv), (get_fred_data env).2 = true →
      get_fred_data env = fred_secondary env.secondary := by
    rintro ⟨hk, prim, sec⟩ h2
    cases hk with
    | false => rfl
    | true =>
      cases prim with
      | raise => exact absurd h2 (by simp [get_fred_data])
      | http st rows =>
        by_cases hc : st = 200 ∧ rows ≠ []
        · exact absurd h2 (by simp [get_fred_data, hc])
        · simp [get_fred_data, hc]
  refine ⟨?_, ?_, ?_, ?_, ?_⟩
  · rintro ⟨hk, prim, sec⟩
    cases hk with
    | false => simp [get_fred_data, fred_secondary_snd]
    | true =>
      cases prim with
      | raise => simp [get_fred_data]
      | http st rows =>
        by_cases hc : st = 200 ∧ rows ≠ []
        · simp [get_fred_data, hc]
        · have hr : st ≠ 200 ∨ rows = [] := by
            by_cases hs : st = 200
            · right
              by_contra hrr
              exact hc ⟨hs, hrr⟩
            · left
              exact hs
          constructor
          · intro _
            exact Or.inr ⟨st, rows, rfl, hr⟩
          · intro _
            show (get_fred_data ⟨true, FredAttempt.http st rows, sec⟩).2 = true
            simp [get_fred_data, hc, fred_secondary_snd]
  · rintro ⟨hk, prim, sec⟩ hk1 hp
    cases hk1
    have hp2 : prim = FredAttempt.raise := hp
    subst hp2
    rfl
  · rintro ⟨hk, prim, sec⟩ st rows hk1 hp h200 hne
    cases hk1
    have hp2 : prim = FredAttempt.http st rows := hp
    subst hp2
    subst h200
    simp [get_fred_data, hne]
  · intro env h2 hs
    rw [hgo env h2, hs]
    rfl
  · intro env st2 rows2 h2 hs
    rw [hgo env h2, hsec env.secondary st2 rows2 hs]

/-- Witness for C9 (amended) at `fredW`: primary present but HTTP 500, so
the secondary is attempted and its 200 response is returned. -/
theorem C9_fred_fallback_amended_witness :
    fredW.hasKey = true ∧ fredW.primary = FredAttempt.http 500 [] ∧
    (get_fred_data fredW).2 = true ∧
    get_fred_data fredW = (some (fred_clean [(D 2024 1 3, some 1)]), true) := by
  have h2 : (get_fred_data fredW).2 = true :=
    (C9_fred_fallback_amended.1 fredW).mpr (Or.inr ⟨500, [], rfl, Or.inl (by decide)⟩)
  have h5 := C9_fred_fallback_amended.2.2.2.2 fredW 200 [(D 2024 1 3, some 1)] h2 rfl
  rw [if_pos rfl] at h5
  exact ⟨rfl, rfl, h2, h5⟩
